import Mathlib

/-!
Verification of the theme service (`src/gui/src/services/ThemeService.js`).

The JavaScript source is shallowly embedded here:

* JS numbers are modelled as exact rationals (`ℚ`) where the code only uses
  field arithmetic and `Math.round`, and as exact reals (`ℝ`) for the
  luminance / contrast pipeline, which uses a non-integer power (`** 2.4`).
* `Math.round x` in JS is `⌊x + 1/2⌋` (round half toward +∞), modelled by
  `jsRound`.
* The theme descriptor `this.state` is the record `ThemeState`; a JS partial
  update object (the argument of `apply`, or a persisted `colors` object)
  is `PartialTheme`, a record of optional fields; the JS object spread
  `{...state, ...values}` is `mergeTheme`.
* The stateful service is modelled as a step function `svcStep` on an
  explicit service state `SvcState` which records, besides the descriptor,
  the observable effects: the persisted file content (`fs`), the list of
  committed writes, the render passes (`reload_` invocations) and the
  number of issued deletes.  The `setTimeout`/`clearTimeout` debounce is
  modelled with explicit timer identifiers: `save_` arms a fresh timer id
  and discards (cancels) the previously armed one; the scheduler event
  `SvcEvent.fire id` commits the save only when `id` is the currently armed
  timer, which is exactly the behaviour of `clearTimeout` on the real
  scheduler (a cleared timer's callback never runs).
-/

namespace ThemeSvc

/-- JS `Math.round`: round half toward positive infinity. -/
def jsRound (x : ℚ) : ℤ := ⌊x + 1/2⌋

/-- An RGB triple `[r, g, b]`; the source passes 3-element arrays. -/
abbrev RGB := ℤ × ℤ × ℤ

/-- `blendWithWhite(rgb, alpha)` from the source:
`effectiveAlpha = 0.5 + 0.5 * alpha`, each channel
`Math.round(c * effectiveAlpha + 255 * (1 - effectiveAlpha))`. -/
def blendWithWhite (rgb : RGB) (alpha : ℚ) : RGB :=
  let effectiveAlpha : ℚ := 0.5 + 0.5 * alpha
  (jsRound ((rgb.1 : ℚ) * effectiveAlpha + 255 * (1 - effectiveAlpha)),
   jsRound ((rgb.2.1 : ℚ) * effectiveAlpha + 255 * (1 - effectiveAlpha)),
   jsRound ((rgb.2.2 : ℚ) * effectiveAlpha + 255 * (1 - effectiveAlpha)))

/-- The theme descriptor: the shape of `this.state` / `default_values`. -/
structure ThemeState where
  sat : ℚ
  hue : ℚ
  lig : ℚ
  alpha : ℚ
  light_text : Bool
deriving DecidableEq, Repr

/-- The module-level `default_values` constant of the source. -/
def default_values : ThemeState :=
  { sat := 41.18, hue := 210, lig := 93.33, alpha := 0.8, light_text := false }

/-- The literal object assigned to `this.state` at the start of `_init`
(textually repeated in the source; same values as `default_values`). -/
def init_state : ThemeState :=
  { sat := 41.18, hue := 210, lig := 93.33, alpha := 0.8, light_text := false }

/-- A partial update object: a JS object that may carry any subset of the
descriptor fields (the argument of `apply`, or a persisted `colors` object). -/
structure PartialTheme where
  sat : Option ℚ
  hue : Option ℚ
  lig : Option ℚ
  alpha : Option ℚ
  light_text : Option Bool
deriving DecidableEq, Repr

/-- JS object spread `{ ...s, ...v }`: fields present in `v` replace the
corresponding fields of `s`; absent fields keep the value from `s`. -/
def mergeTheme (s : ThemeState) (v : PartialTheme) : ThemeState :=
  { sat := v.sat.getD s.sat
    hue := v.hue.getD s.hue
    lig := v.lig.getD s.lig
    alpha := v.alpha.getD s.alpha
    light_text := v.light_text.getD s.light_text }

/-- The descriptor field names, for the `get(key)` accessor. -/
inductive ThemeKey where
  | sat | hue | lig | alpha | light_text
deriving DecidableEq, Repr

/-- A descriptor field value (JS values are numbers or booleans here). -/
inductive ThemeVal where
  | num (q : ℚ)
  | bool (b : Bool)
deriving DecidableEq, Repr

/-- `this.state[key]`. -/
def themeGet (s : ThemeState) : ThemeKey → ThemeVal
  | .sat => .num s.sat
  | .hue => .num s.hue
  | .lig => .num s.lig
  | .alpha => .num s.alpha
  | .light_text => .bool s.light_text

/-! ### Color math over exact reals
`getLuminance` applies to each channel `val / 255` the sRGB gamma map
`val <= 0.03928 ? val / 12.92 : ((val + 0.055) / 1.055) ** 2.4`
and takes the WCAG-weighted sum. -/

/-- The per-channel gamma map used inside `getLuminance` (argument already
divided by 255). -/
noncomputable def gammaMap (v : ℝ) : ℝ :=
  if v ≤ 0.03928 then v / 12.92 else ((v + 0.055) / 1.055) ^ (2.4 : ℝ)

/-- `getLuminance(rgb)`: WCAG relative luminance. -/
noncomputable def getLuminance (rgb : RGB) : ℝ :=
  0.2126 * gammaMap ((rgb.1 : ℝ) / 255)
    + 0.7152 * gammaMap ((rgb.2.1 : ℝ) / 255)
    + 0.0722 * gammaMap ((rgb.2.2 : ℝ) / 255)

/-- `getContrastRatio(rgb1, rgb2)`:
`(lighter + 0.05) / (darker + 0.05)` with `lighter`/`darker` the max/min
of the two luminances. -/
noncomputable def getContrastRatio (rgb1 rgb2 : RGB) : ℝ :=
  (max (getLuminance rgb1) (getLuminance rgb2) + 0.05)
    / (min (getLuminance rgb1) (getLuminance rgb2) + 0.05)

/-- `getOptimalTextColor(backgroundColor)`: compares the contrast of the
background against pure black and pure white and returns the hex string of
the better of the two (ties go to black, the `>=` branch). -/
noncomputable def getOptimalTextColor (backgroundColor : RGB) : String :=
  if getContrastRatio (0, 0, 0) backgroundColor
      ≥ getContrastRatio (255, 255, 255) backgroundColor
  then "#000000" else "#ffffff"

/-! ### The stateful service -/

/-- Observable service state: the descriptor plus the effects the theorems
talk about.  `pending` is the currently armed save timer (the value of
`this.save_cooldown_` when live), `nextTimer` a fresh-id supply, `fs` the
persisted record (the store keeps the serialization of
`{ colors: state }`; serialization is injective on the descriptor, so the
store content is modelled by the descriptor itself), `writes` the committed
`puter.fs.write` calls in order, `renders` the `reload_` passes in order,
`deletes` the number of `puter.fs.delete` calls. -/
structure SvcState where
  theme : ThemeState
  pending : Option ℕ
  nextTimer : ℕ
  fs : Option ThemeState
  writes : List ThemeState
  renders : List ThemeState
  deletes : ℕ
deriving DecidableEq, Repr

/-- `get (key) { return this.state[key]; }`. -/
def svcGet (s : SvcState) (key : ThemeKey) : ThemeVal := themeGet s.theme key

/-- Events driving the service: the public operations `apply` and `reset`,
and the scheduler delivering expiry of timer `id` (`fire id`). -/
inductive SvcEvent where
  | apply (values : PartialTheme)
  | reset
  | fire (id : ℕ)
deriving DecidableEq, Repr

/-- One step of the service.

* `apply values`: `this.state = {...this.state, ...values}`, then `reload_()`
  (recorded in `renders`), then `save_()`: `clearTimeout` of any armed timer
  (the old id is discarded, so its `fire` will be ignored) and `setTimeout`
  of a fresh one.
* `reset`: `this.state = default_values`, `reload_()`, and an immediate
  `puter.fs.delete` — the armed timer is left untouched.
* `fire id`: the scheduler runs the callback of timer `id` if and only if it
  is still the armed one (a cleared timer never fires); the callback
  `commit_save_` writes `{ colors: this.state }` at its run time. -/
def svcStep (s : SvcState) : SvcEvent → SvcState
  | .apply values =>
    let t := mergeTheme s.theme values
    { s with theme := t, renders := s.renders ++ [t],
             pending := some s.nextTimer, nextTimer := s.nextTimer + 1 }
  | .reset =>
    { s with theme := default_values,
             renders := s.renders ++ [default_values],
             fs := none, deletes := s.deletes + 1 }
  | .fire id =>
    if s.pending = some id then
      { s with fs := some s.theme, writes := s.writes ++ [s.theme],
               pending := none }
    else s

/-- Run a sequence of events. -/
def svcRun (s : SvcState) : List SvcEvent → SvcState
  | [] => s
  | e :: es => svcRun (svcStep s e) es

/-! ### Initialization (`_init`)

`_init` reads the persisted file, parses it with `JSON.parse`, and then
merges only `data.colors`:

    if ( data && data.colors ) {
        this.state = { ...this.state, ...data.colors };
    }

The result of a successful `JSON.parse` is modelled by `JSData`, keeping
exactly what `_init` inspects: whether the value is truthy, and whether it
has a truthy `colors` property and what descriptor fields that object (and
the top level) carries. -/

/-- A successfully parsed JSON value as `_init` sees it. `nonObj truthy`
covers primitives (`null`, numbers, strings, booleans) whose `.colors`
access yields nothing; `obj colors top` covers objects (always truthy):
`colors` is the `colors` property when present and truthy (an object),
`top` the descriptor-shaped fields sitting at the top level. -/
inductive JSData where
  | nonObj (truthy : Bool)
  | obj (colors : Option PartialTheme) (top : PartialTheme)
deriving DecidableEq, Repr

/-- Outcome of `puter.fs.read`: file content, the `subject_does_not_exist`
error, or any other error. -/
inductive ReadOutcome where
  | ok (s : String)
  | errNotFound
  | errOther
deriving DecidableEq, Repr

/-- The user-visible alert message built by `_init` on a parse failure
(`UIAlert` with the parse error's `message`). -/
def alertMessage (emsg : String) : String :=
  "Could not parse \"~/.__puter_gui.json\": " ++ emsg

/-- What `_init` leaves behind: the descriptor, the alert messages shown
via `UIAlert`, the number of `console.error` logs, and whether `reload_`
ran. -/
structure InitResult where
  state : ThemeState
  alerts : List String
  logs : ℕ
  rendered : Bool
deriving DecidableEq, Repr

/-- The state `_init` computes from a parsed value: the guard
`data && data.colors` admits only an object with a truthy `colors`
property, whose fields are then spread onto the initial state. -/
def initMergedState (d : JSData) : ThemeState :=
  match d with
  | .obj (some c) _ => mergeTheme init_state c
  | _ => init_state

/-- `_init`, as a function of the outcome of the read and of `JSON.parse`
(a host primitive, passed as the `parse` parameter: `.error e` models a
thrown exception with message `e`).  An empty string is falsy, so
`if ( data ) try { JSON.parse ... }` skips parsing for it.  `reload_()`
always runs at the end. -/
def themeInit (parse : String → Except String JSData) :
    ReadOutcome → InitResult
  | .errNotFound => { state := init_state, alerts := [], logs := 0, rendered := true }
  | .errOther => { state := init_state, alerts := [], logs := 1, rendered := true }
  | .ok str =>
    if str = "" then
      { state := init_state, alerts := [], logs := 0, rendered := true }
    else
      match parse str with
      | .error e =>
        { state := init_state, alerts := [alertMessage e], logs := 1, rendered := true }
      | .ok d =>
        { state := initMergedState d, alerts := [], logs := 0, rendered := true }

/-! ### Theorems -/

/-- A persisted object that is a valid descriptor at the top level (all
five fields present) but has no `colors` property. -/
def topLevelDescriptor : PartialTheme :=
  { sat := some 50, hue := some 120, lig := some 50,
    alpha := some 0.5, light_text := some true }

/-- C1 counterexample: a parsed object that is a valid descriptor at the
top level (no `colors` property) is NOT merged — `_init` keeps the default
descriptor (`hue` stays `210`, not the persisted `120`), because the guard
`data && data.colors` only admits a `colors` sub-object. -/
theorem init_top_level_descriptor_ignored :
    initMergedState (JSData.obj none topLevelDescriptor) = init_state
    ∧ initMergedState (JSData.obj none topLevelDescriptor)
        ≠ mergeTheme init_state topLevelDescriptor := by
  constructor
  · rfl
  · intro h
    have hh := congrArg ThemeState.hue h
    simp only [initMergedState, mergeTheme, init_state, topLevelDescriptor,
      Option.getD] at hh
    norm_num at hh

/-- C1 (amended): during initialize, fields of the parsed object are merged
field by field onto the in-memory default descriptor only when the parsed
value is an object with a truthy `colors` sub-object; the merge tolerates
an incomplete `colors` object (absent fields keep their defaults), and any
other parsed shape — including a valid descriptor at the top level — leaves
the default descriptor unchanged. -/
theorem init_merges_only_colors (c top : PartialTheme) :
    initMergedState (JSData.obj (some c) top) = mergeTheme init_state c
    ∧ initMergedState (JSData.obj none top) = init_state
    ∧ (∀ t : Bool, initMergedState (JSData.nonObj t) = init_state)
    ∧ (mergeTheme init_state c).sat = c.sat.getD init_state.sat
    ∧ (mergeTheme init_state c).hue = c.hue.getD init_state.hue
    ∧ (mergeTheme init_state c).lig = c.lig.getD init_state.lig
    ∧ (mergeTheme init_state c).alpha = c.alpha.getD init_state.alpha
    ∧ (mergeTheme init_state c).light_text = c.light_text.getD init_state.light_text
    ∧ (∀ q : ℚ, mergeTheme init_state
        { sat := none, hue := some q, lig := none, alpha := none, light_text := none }
        = { sat := init_state.sat, hue := q, lig := init_state.lig,
            alpha := init_state.alpha, light_text := init_state.light_text }) :=
  ⟨rfl, rfl, fun _ => rfl, rfl, rfl, rfl, rfl, rfl, fun _ => rfl⟩

/-- C2: two `apply` calls within one cooldown window (the second arrives
before the first timer expires, so the window contains the first call's
timer id only as a cancelled timer) produce exactly one persisted write:
the first call's timer (`s0.nextTimer`) was cancelled by the second call's
`clearTimeout` and its firing is a no-op, while the second call's timer
commits the serialization of the state after the second merge. -/
theorem debounced_apply_single_write (s0 : SvcState) (v1 v2 : PartialTheme) :
    (svcRun s0 [.apply v1, .apply v2, .fire s0.nextTimer,
                .fire (s0.nextTimer + 1)]).writes
      = s0.writes ++ [mergeTheme (mergeTheme s0.theme v1) v2]
    ∧ (svcRun s0 [.apply v1, .apply v2, .fire s0.nextTimer,
                  .fire (s0.nextTimer + 1)]).fs
      = some (mergeTheme (mergeTheme s0.theme v1) v2) := by
  constructor <;> simp [svcRun, svcStep]

/-- C3: `reset` does not cancel a pending debounced save: after
`apply v; reset`, the timer armed by `apply` is still pending and the
persisted record has been deleted; when that timer then fires, it writes
the then-current (default) state back to the store, recreating the deleted
record. -/
theorem reset_leaves_timer_stale_write (s0 : SvcState) (v : PartialTheme) :
    (svcRun s0 [.apply v, .reset]).pending = some s0.nextTimer
    ∧ (svcRun s0 [.apply v, .reset]).fs = none
    ∧ (svcRun s0 [.apply v, .reset, .fire s0.nextTimer]).fs
        = some default_values
    ∧ (svcRun s0 [.apply v, .reset, .fire s0.nextTimer]).writes
        = s0.writes ++ [default_values] := by
  refine ⟨rfl, rfl, ?_, ?_⟩ <;> simp [svcRun, svcStep]

/-- C4: after `reset()`, the descriptor equals the compiled-in defaults
(`get('alpha')` returns `0.8`), a render pass with the default state was
triggered, and the persisted record was deleted in the same step — not
through the debounced-save path: no write is committed and the pending
timer state is untouched. -/
theorem reset_restores_defaults (s0 : SvcState) :
    (svcStep s0 .reset).theme = default_values
    ∧ svcGet (svcStep s0 .reset) .alpha = .num 0.8
    ∧ (svcStep s0 .reset).renders = s0.renders ++ [default_values]
    ∧ (svcStep s0 .reset).fs = none
    ∧ (svcStep s0 .reset).deletes = s0.deletes + 1
    ∧ (svcStep s0 .reset).writes = s0.writes
    ∧ (svcStep s0 .reset).pending = s0.pending :=
  ⟨rfl, rfl, rfl, rfl, rfl, rfl, rfl⟩

/-- C5: from every prior state, `apply({hue: 120})` followed by
`get('hue')` returns `120`, and every other descriptor field keeps exactly
its prior value (shallow per-field merge, not replacement). -/
theorem apply_merges_hue_preserves_rest (s0 : SvcState) :
    svcGet (svcStep s0 (.apply
        { sat := none, hue := some 120, lig := none,
          alpha := none, light_text := none })) .hue = .num 120
    ∧ (svcStep s0 (.apply
        { sat := none, hue := some 120, lig := none,
          alpha := none, light_text := none })).theme.sat = s0.theme.sat
    ∧ (svcStep s0 (.apply
        { sat := none, hue := some 120, lig := none,
          alpha := none, light_text := none })).theme.lig = s0.theme.lig
    ∧ (svcStep s0 (.apply
        { sat := none, hue := some 120, lig := none,
          alpha := none, light_text := none })).theme.alpha = s0.theme.alpha
    ∧ (svcStep s0 (.apply
        { sat := none, hue := some 120, lig := none,
          alpha := none, light_text := none })).theme.light_text
        = s0.theme.light_text :=
  ⟨rfl, rfl, rfl, rfl, rfl⟩

/-- C6: `getOptimalTextColor` returns only pure black or pure white, and it
returns black exactly when the background's contrast ratio against black is
at least its contrast ratio against white (ties go to black). -/
theorem optimal_text_color_binary_choice (bg : RGB) :
    (getOptimalTextColor bg = "#000000" ∨ getOptimalTextColor bg = "#ffffff")
    ∧ (getOptimalTextColor bg = "#000000"
        ↔ getContrastRatio (255, 255, 255) bg ≤ getContrastRatio (0, 0, 0) bg) := by
  unfold getOptimalTextColor
  by_cases h : getContrastRatio (0, 0, 0) bg ≥ getContrastRatio (255, 255, 255) bg
  · rw [if_pos h]
    exact ⟨Or.inl rfl, by simpa using h⟩
  · rw [if_neg h]
    refine ⟨Or.inr rfl, ?_, fun hle => absurd hle h⟩
    intro heq
    exact absurd heq (by decide)

/-- C7: at initialize, persisted content that fails to parse is discarded
(the descriptor stays at the defaults), exactly one alert carrying the
parse error detail is surfaced, the failure is logged, and the render pass
still executes; a not-found read error is fully silent (defaults, no
alert, no log), and any other read failure is logged but produces no
alert. -/
theorem init_error_handling (parse : String → Except String JSData)
    (str emsg : String) (hp : parse str = .error emsg) (hs : str ≠ "") :
    themeInit parse (.ok str)
      = { state := init_state, alerts := [alertMessage emsg],
          logs := 1, rendered := true }
    ∧ themeInit parse .errNotFound
      = { state := init_state, alerts := [], logs := 0, rendered := true }
    ∧ themeInit parse .errOther
      = { state := init_state, alerts := [], logs := 1, rendered := true } := by
  refine ⟨?_, rfl, rfl⟩
  simp only [themeInit]
  rw [if_neg hs, hp]

/-- A parse function on which every input throws, standing in for
`JSON.parse` applied to malformed text. -/
def parseAllFails : String → Except String JSData :=
  fun _ => .error "Unexpected token"

/-- C7 witness: the malformed persisted text `"\x7bnot json"` with the
always-throwing parse function. -/
theorem init_error_handling_witness :
    themeInit parseAllFails (.ok "\x7bnot json")
      = { state := init_state, alerts := [alertMessage "Unexpected token"],
          logs := 1, rendered := true }
    ∧ themeInit parseAllFails .errNotFound
      = { state := init_state, alerts := [], logs := 0, rendered := true }
    ∧ themeInit parseAllFails .errOther
      = { state := init_state, alerts := [], logs := 1, rendered := true } :=
  init_error_handling parseAllFails "\x7bnot json" "Unexpected token" rfl
    (by decide)

/-- C8: for integer channels in `[0,255]`, `blendWithWhite(rgb, 1)` is the
identity, `blendWithWhite(rgb, 0)` returns each channel rounded from the
halfway blend `channel*0.5 + 255*0.5` (the 50%-toward-white blend, not a
constant pure white), and the effective alpha `0.5 + 0.5*alpha` never
drops below `0.5` for nonnegative alpha. -/
theorem blendWithWhite_endpoints (r g b : ℤ)
    (h : 0 ≤ r ∧ r ≤ 255 ∧ 0 ≤ g ∧ g ≤ 255 ∧ 0 ≤ b ∧ b ≤ 255) :
    blendWithWhite (r, g, b) 1 = (r, g, b)
    ∧ blendWithWhite (r, g, b) 0
      = (jsRound ((r : ℚ) * 0.5 + 255 * 0.5),
         jsRound ((g : ℚ) * 0.5 + 255 * 0.5),
         jsRound ((b : ℚ) * 0.5 + 255 * 0.5))
    ∧ (∀ a : ℚ, 0 ≤ a → (0.5 : ℚ) ≤ 0.5 + 0.5 * a) := by
  refine ⟨?_, ?_, ?_⟩
  · simp only [blendWithWhite, jsRound]
    norm_num
  · simp only [blendWithWhite, jsRound]
    norm_num
  · intro a ha
    nlinarith

/-- C8 witness: the channel triple `(10, 20, 30)`; `alpha = 1` passes the
triple through, `alpha = 0` yields the halfway blend `(133, 138, 143)`. -/
theorem blendWithWhite_endpoints_witness :
    blendWithWhite (10, 20, 30) 1 = (10, 20, 30)
    ∧ blendWithWhite (10, 20, 30) 0 = (133, 138, 143) := by
  have h := blendWithWhite_endpoints 10 20 30 (by decide)
  refine ⟨h.1, ?_⟩
  rw [h.2.1]
  simp only [jsRound]
  norm_num

/-- C9: the contrast ratio is symmetric in its two arguments. -/
theorem getContrastRatio_symm (a b : RGB) :
    getContrastRatio a b = getContrastRatio b a := by
  unfold getContrastRatio
  rw [max_comm, min_comm]

/-- The gamma map sends 0 to 0 (the linear branch). -/
theorem gammaMap_zero : gammaMap 0 = 0 := by
  unfold gammaMap
  rw [if_pos (by norm_num)]
  norm_num

/-- The gamma map sends 1 to 1 (`((1 + 0.055)/1.055) ^ 2.4 = 1`). -/
theorem gammaMap_one : gammaMap 1 = 1 := by
  unfold gammaMap
  rw [if_neg (by norm_num)]
  have h : ((1 : ℝ) + 0.055) / 1.055 = 1 := by norm_num
  rw [h, Real.one_rpow]

/-- Pure black has relative luminance 0. -/
theorem getLuminance_black : getLuminance (0, 0, 0) = 0 := by
  unfold getLuminance
  norm_num [gammaMap_zero]

/-- Pure white has relative luminance exactly 1
(`0.2126 + 0.7152 + 0.0722 = 1`). -/
theorem getLuminance_white : getLuminance (255, 255, 255) = 1 := by
  unfold getLuminance
  norm_num [gammaMap_one]

/-- C10: the contrast ratio of black against black is exactly 1, and of
black against white exactly 21 — the WCAG bounds. -/
theorem getContrastRatio_wcag_bounds :
    getContrastRatio (0, 0, 0) (0, 0, 0) = 1
    ∧ getContrastRatio (0, 0, 0) (255, 255, 255) = 21 := by
  unfold getContrastRatio
  rw [getLuminance_black, getLuminance_white]
  norm_num

end ThemeSvc
